import Mathlib

/-!
# ModelMeter quota logic — verification development

Shallow embedding of the per-model usage-counter and quota-window logic of the
ModelMeter browser extension (files `extension/timestamp_utils.js`,
`extension/background.js`, `extension/content.js`, and the storage utility
module), together with proofs about its reconciliation behaviour.

Conventions of the embedding:

* Timestamps are epoch milliseconds, modelled as `Int`.
* A JavaScript value that may be `null`/`undefined`/absent is an
  `Option Int` (or `Option String`).  JavaScript truthiness of a number is
  `t ≠ 0` (`0`, `null` and `undefined` are falsy); coercion of
  `null`/`undefined` to a number in a comparison yields `0` (`jsVal`).
* Local wall-clock arithmetic (`setHours`/`setDate`/`setMonth`) is modelled
  in a fixed-offset timezone: `setHours(+n)` adds `n*3600000` ms,
  `setDate(+n)` adds `n*86400000` ms, and `setMonth` performs civil-calendar
  month arithmetic with JavaScript's day-of-month overflow semantics
  (Jan 31 + 1 month = Mar 3), implemented below via March-shifted
  civil-date conversions that are linear in the day.
* The unbounded `while` loop of `updateFutureModelTimestamps` is
  step-indexed by a fuel parameter; an outer result of `none` means the
  source loop has not terminated within the given fuel (the theorems below
  hold for every fuel).
-/

namespace ModelMeter

/-- Truthiness of a JavaScript number-or-nullish value: `null`/`undefined`
and `0` are falsy, every other number is truthy. -/
def jsTruthy : Option Int → Bool
  | none => false
  | some t => decide (t ≠ 0)

/-- Numeric coercion of a JavaScript number-or-nullish value as used in
comparisons: `null`/`undefined` coerce to `0`. -/
def jsVal : Option Int → Int
  | none => 0
  | some t => t

/-- JavaScript `a || b` on number-or-nullish values: `a` if truthy, else `b`. -/
def jsOr (a b : Option Int) : Option Int :=
  if jsTruthy a then a else b

/-- Truthiness of a JavaScript string-or-nullish value: `null`/`undefined`
and the empty string are falsy. -/
def jsTruthyStr : Option String → Bool
  | none => false
  | some s => decide (s ≠ "")

/-- Helper for `strIncludes`: does `needle` occur as a contiguous sublist? -/
def strIncludesAux (needle : List Char) : List Char → Bool
  | [] => needle.isPrefixOf []
  | c :: rest => needle.isPrefixOf (c :: rest) || strIncludesAux needle rest

/-- JavaScript `haystack.includes(needle)` on strings. -/
def strIncludes (haystack needle : String) : Bool :=
  strIncludesAux needle.data haystack.data

/-- JavaScript `s.toLowerCase()` (the model names handled are ASCII). -/
def strToLower (s : String) : String := ⟨s.data.map Char.toLower⟩

/-- JavaScript object property lookup `obj[key]` over an association list
(the embedding of a JS object literal, in declaration order). -/
def jsLookup {α : Type} (key : String) (tbl : List (String × α)) : Option α :=
  (tbl.find? (fun p => p.1 == key)).map (fun p => p.2)

/-!
## Civil calendar arithmetic (the JavaScript `Date` runtime)

These functions model the `Date` operations the extension relies on; they are
not themselves extension code.  `civilFromDays`/`daysFromCivil` convert
between a day count from the epoch 1970-01-01 and a Gregorian civil date
`(year, month ∈ [1,12], day)` using a March-based year (so leap days sit at
the end of the shifted year).  `daysFromCivil` is linear in `day`, matching
JavaScript's day-of-month overflow behaviour exactly.  All divisions are
Euclidean, which for the positive divisors used coincides with floor
division (as JavaScript's calendar computations require).
-/

/-- 1 if `y` is a Gregorian leap year, 0 otherwise. -/
def leapCorr (y : Int) : Int :=
  if (y % 4 = 0 ∧ ¬(y % 100 = 0)) ∨ y % 400 = 0 then 1 else 0

/-- Days from the epoch 1970-01-01 to January 1 of year `y`. -/
def daysBeforeYear (y : Int) : Int :=
  365 * (y - 1) + (y - 1) / 4 - (y - 1) / 100 + (y - 1) / 400 - 719162

/-- Days from the epoch to March 1 of year `y`. -/
def marchStart (y : Int) : Int :=
  daysBeforeYear y + 59 + leapCorr y

/-- The year whose March-based year (Mar 1 of `y` up to Feb 28/29 of `y+1`)
contains epoch day `z`: approximated from the 400-year cycle of 146097 days,
then corrected by at most one. -/
def marchYearOfDay (z : Int) : Int :=
  let y0 := (400 * z + 287640404) / 146097 + 1
  if z < marchStart (y0 + 1) then y0 else y0 + 1

/-- Civil date `(y, m, d)` of epoch day `z` (Gregorian, month `1..12`). -/
def civilFromDays (z : Int) : Int × Int × Int :=
  let y := marchYearOfDay z
  let doy := z - marchStart y
  let mp := (5 * doy + 2) / 153
  let d := doy - (153 * mp + 2) / 5 + 1
  let m := if mp < 10 then mp + 3 else mp - 9
  (if m ≤ 2 then y + 1 else y, m, d)

/-- Epoch day of the civil date `(y, m, d)`; linear in `d`, so day-of-month
overflow rolls into the following months, exactly as JavaScript `Date`
does. -/
def daysFromCivil (y m d : Int) : Int :=
  let my := if m ≤ 2 then y - 1 else y
  let mp := if 2 < m then m - 3 else m + 9
  marchStart my + (153 * mp + 2) / 5 + d - 1

/-- JavaScript `date.setMonth(date.getMonth() + n)` on an epoch-millisecond
timestamp `t` (fixed-offset timezone): keep the millisecond-of-day and the
day-of-month, move `n` months (with year carry, month normalised into
`[0,11]`), day overflow rolling forward. -/
def monthAdd (t n : Int) : Int :=
  let ms := t % 86400000
  let days := (t - ms) / 86400000
  let c := civilFromDays days
  let ym := c.1 * 12 + (c.2.1 - 1) + n
  daysFromCivil (ym / 12) (ym % 12 + 1) c.2.2 * 86400000 + ms

/-!
## Data model

`ModelInfo` is the per-model record kept in storage (`modelData[modelName]`):
a message count, the window start (`lastResetTimestamp`, "Since") and the
window end (`nextResetTime`, mirrored in `limitResetTime`, "Until").
`LimitObject` is a quota descriptor of `getModelLimits`
(`timestamp_utils.js`); `ContentLimit` is a quota descriptor of the
plan/limit tables inlined in `content.js` (whose `count`/`displayText`
fields are presentation-only — `count` can be `Infinity` — and play no role
in the logic verified here, so they are omitted). -/
structure ModelInfo where
  count : Int
  lastResetTimestamp : Option Int
  nextResetTime : Option Int
  limitResetTime : Option Int
deriving DecidableEq

/-- Quota descriptor of `getModelLimits` (`timestamp_utils.js:234-277`).
The source's unlimited entries carry no `periodAmount`; it is never read for
them (`calculateNextTimestampAfterPeriod` returns before using it), and the
embedding stores 0 there. -/
structure LimitObject where
  limit : Int
  periodAmount : Int
  periodUnit : String
deriving DecidableEq

/-- Quota descriptor of the plan/limit tables inlined in `content.js`
(e.g. lines 2646-2667). -/
structure ContentLimit where
  periodAmount : Int
  periodUnit : String
deriving DecidableEq

/-- `getModelLimits` (`timestamp_utils.js:234-277`): the quota table of the
background/utility module.  Note it returns the same (FREE-defaulted) table
for every plan string other than `"PLUS"`. -/
def getModelLimits (currentPlan : String) : List (String × LimitObject) :=
  let isPlus := currentPlan = "PLUS"
  [ ("gpt-4", { limit := if isPlus then 100 else 40, periodAmount := 1, periodUnit := "day" }),
    ("gpt-4o", { limit := if isPlus then 100 else 25, periodAmount := 3, periodUnit := "hour" }),
    ("gpt-3.5-turbo", { limit := 0, periodAmount := 0, periodUnit := "unlimited" }),
    ("o4-mini", { limit := 0, periodAmount := 0, periodUnit := "unlimited" }),
    ("o4", { limit := if isPlus then 100 else 25, periodAmount := 3, periodUnit := "hour" }),
    ("g4", { limit := if isPlus then 100 else 40, periodAmount := 1, periodUnit := "day" }),
    ("g4t", { limit := if isPlus then 100 else 40, periodAmount := 1, periodUnit := "day" }),
    ("g35t", { limit := 0, periodAmount := 0, periodUnit := "unlimited" }) ]

/-- The plan/limit table inlined in `content.js:2645-2667` (identical copies
at 1504-1525, 3693-3724, 4596-4617): `{}` for FREE and PLUS is filled in,
any other plan keeps the empty table. -/
def contentModelLimits (currentPlan : String) : List (String × ContentLimit) :=
  if currentPlan = "FREE" then
    [ ("gpt-4o", { periodAmount := 3, periodUnit := "hour" }),
      ("gpt-4o-mini", { periodAmount := 0, periodUnit := "unlimited" }),
      ("o3-mini", { periodAmount := 0, periodUnit := "none" }),
      ("o4-mini", { periodAmount := 5, periodUnit := "hour" }),
      ("o4-mini-high", { periodAmount := 0, periodUnit := "none" }),
      ("deep-research-lite", { periodAmount := 1, periodUnit := "month" }),
      ("dall-e-3", { periodAmount := 1, periodUnit := "day" }) ]
  else if currentPlan = "PLUS" then
    [ ("gpt-4", { periodAmount := 3, periodUnit := "hour" }),
      ("gpt-4o", { periodAmount := 3, periodUnit := "hour" }),
      ("o3", { periodAmount := 1, periodUnit := "week" }),
      ("o3-mini", { periodAmount := 1, periodUnit := "week" }),
      ("o4-mini", { periodAmount := 1, periodUnit := "day" }),
      ("o4-mini-high", { periodAmount := 1, periodUnit := "day" }),
      ("deep-research", { periodAmount := 1, periodUnit := "month" }),
      ("dall-e-3", { periodAmount := 3, periodUnit := "hour" }) ]
  else []

/-- View of a `ContentLimit` as a `LimitObject` (for comparing the two
independent period-arithmetic implementations; the `limit` field is unused
by `calculateNextTimestampAfterPeriod`). -/
def contentDescriptor (d : ContentLimit) : LimitObject :=
  { limit := 0, periodAmount := d.periodAmount, periodUnit := d.periodUnit }

/-- `findLimitObjectForModel` (`timestamp_utils.js:211-227`): exact key,
then lower-cased key, then first key related by substring inclusion either
way.  The identical inline matching in `content.js:2678-2695` is this same
algorithm over its own table. -/
def findLimitObjectForModel {α : Type} (modelName modelLowerCase : String)
    (modelLimits : List (String × α)) : Option α :=
  match jsLookup modelName modelLimits with
  | some v => some v
  | none =>
    match jsLookup modelLowerCase modelLimits with
    | some v => some v
    | none =>
      (modelLimits.find? (fun p =>
        strIncludes modelLowerCase (strToLower p.1) || strIncludes (strToLower p.1) modelLowerCase)).map
        (fun p => p.2)

/-- `calculateNextTimestampAfterPeriod` (`timestamp_utils.js:174-202`).
The source also guards `!limitObject`; every call site passes a non-null
descriptor, so the embedding takes it directly.  `!timestamp` (null or 0)
yields null. -/
def calculateNextTimestampAfterPeriod (timestamp : Option Int)
    (limitObject : LimitObject) : Option Int :=
  match timestamp with
  | none => none
  | some t =>
    if t = 0 then none
    else
      match limitObject.periodUnit with
      | "hour" => some (t + limitObject.periodAmount * 3600000)
      | "day" => some (t + limitObject.periodAmount * 86400000)
      | "week" => some (t + limitObject.periodAmount * 7 * 86400000)
      | "month" => some (monthAdd t limitObject.periodAmount)
      | "unlimited" => none
      | "none" => none
      | _ => none

/-!
## rollForward — `updateFutureModelTimestamps` (`timestamp_utils.js:42-119`)

The per-model body of the update loop.  `rollLoop` is the inner
`while (nextPeriodStart < now && nextPeriodStart < resetTime)` loop,
step-indexed by fuel; `none` (outer) marks a run that has not terminated
within the fuel (in the source: the loop still running — e.g. forever, when
`calculateNextTimestampAfterPeriod` returns null, which comparisons then
coerce to 0). -/
def rollLoop (limitObject : LimitObject) (now resetTime : Int) :
    Nat → Option Int → Option (Option Int)
  | 0, s => if jsVal s < now ∧ jsVal s < resetTime then none else some s
  | fuel + 1, s =>
    if jsVal s < now ∧ jsVal s < resetTime then
      rollLoop limitObject now resetTime fuel
        (calculateNextTimestampAfterPeriod s limitObject)
    else some s

/-- Computation of `nextPeriodStart` (`timestamp_utils.js:67-92`): for
bounded units, advance once, loop, then cap at `resetTime` (lines 77-86:
if the loop result reached `resetTime` and `resetTime > lastResetTimestamp`,
revert to `lastResetTimestamp`); for unlimited/none, keep
`lastResetTimestamp`. -/
def rollForwardLoopResult (fuel : Nat) (limitObject : LimitObject)
    (now resetTime lastResetTimestamp : Int) : Option (Option Int) :=
  if limitObject.periodUnit ≠ "unlimited" ∧ limitObject.periodUnit ≠ "none" then
    (rollLoop limitObject now resetTime fuel
        (calculateNextTimestampAfterPeriod (some lastResetTimestamp) limitObject)).map
      (fun s =>
        if resetTime ≤ jsVal s ∧ lastResetTimestamp < resetTime then
          some lastResetTimestamp
        else s)
  else some (some lastResetTimestamp)

/-- One model's step of `updateFutureModelTimestamps`
(`timestamp_utils.js:42-119`), given the resolved descriptor (models without
a descriptor are skipped by the source and unchanged).  Processes only
records whose effective `resetTime` is truthy and `> now`; commits
(lines 96-108) only if `nextPeriodStart > lastResetTimestamp` and
`nextPeriodStart < now`, spreading the old record (so `count` is kept) and
replacing the three timestamp fields. -/
def rollForwardStep (fuel : Nat) (modelInfo : ModelInfo)
    (limitObject : LimitObject) (now : Int) : Option ModelInfo :=
  let resetTime := jsOr modelInfo.nextResetTime modelInfo.limitResetTime
  if jsTruthy resetTime ∧ now < jsVal resetTime then
    let lastResetTimestamp :=
      if jsTruthy modelInfo.lastResetTimestamp then jsVal modelInfo.lastResetTimestamp
      else now - 86400000
    match rollForwardLoopResult fuel limitObject now (jsVal resetTime) lastResetTimestamp with
    | none => none
    | some nextPeriodStart =>
      if lastResetTimestamp < jsVal nextPeriodStart ∧ jsVal nextPeriodStart < now then
        let newUntilTimestamp :=
          calculateNextTimestampAfterPeriod (some (jsVal nextPeriodStart)) limitObject
        some { modelInfo with
          lastResetTimestamp := some (jsVal nextPeriodStart),
          nextResetTime := newUntilTimestamp,
          limitResetTime := newUntilTimestamp }
      else some modelInfo
  else some modelInfo

/-!
## expire — `checkAndResetExpiredModels` (`content.js:2544-2799`) composed
with `handleSingleModelReset` (`background.js:358-398`). -/

/-- The expiry test of the sweep (`content.js:2582-2625`): effective reset
time truthy, a positive number, and strictly before `now`. -/
def checkExpired (modelInfo : ModelInfo) (now : Int) : Bool :=
  let nextResetTime := jsOr modelInfo.nextResetTime modelInfo.limitResetTime
  jsTruthy nextResetTime && decide (0 < jsVal nextResetTime) &&
    decide (jsVal nextResetTime < now)

/-- The sweep's own period switch (`content.js:2706-2724`): like
`calculateNextTimestampAfterPeriod` but an unknown unit defaults to +3h. -/
def contentSwitchAdvance (now : Int) (d : ContentLimit) : Int :=
  match d.periodUnit with
  | "hour" => now + d.periodAmount * 3600000
  | "day" => now + d.periodAmount * 86400000
  | "week" => now + d.periodAmount * 7 * 86400000
  | "month" => monthAdd now d.periodAmount
  | _ => now + 3 * 3600000

/-- `newUntilTimestamp` computed by the sweep for one model
(`content.js:2670-2741`): look the model up in the content table; for a
bounded unit run the switch and fall back to now+3h if the result is not
past `now` (lines 2729-2735; `isNaN` cannot arise in the integer model);
otherwise null. -/
def contentComputeUntil (modelName plan : String) (now : Int) : Option Int :=
  match findLimitObjectForModel modelName (strToLower modelName) (contentModelLimits plan) with
  | some d =>
    if d.periodUnit ≠ "unlimited" ∧ d.periodUnit ≠ "none" then
      some (if contentSwitchAdvance now d ≤ now then now + 3 * 3600000
            else contentSwitchAdvance now d)
    else none
  | none => none

/-- `handleSingleModelReset` (`background.js:358-398`): zero the count, set
"Since" to the given reset instant (or `Date.now()` if falsy), and take the
"Until" from the message when it is a number, else recompute it from the
background's own `getModelLimits` table (null when no descriptor matches). -/
def handleSingleModelReset (modelFullName plan : String) (resetTimestamp : Option Int)
    (dateNow : Int) (nextResetTimeMsg : Option Int) (existing : Option ModelInfo) :
    ModelInfo :=
  let info := existing.getD
    { count := 0, lastResetTimestamp := none, nextResetTime := none, limitResetTime := none }
  let now := if jsTruthy resetTimestamp then jsVal resetTimestamp else dateNow
  let calculatedUntil :=
    match nextResetTimeMsg with
    | some u => some u
    | none =>
      match findLimitObjectForModel modelFullName (strToLower modelFullName) (getModelLimits plan) with
      | some limitObject => calculateNextTimestampAfterPeriod (some now) limitObject
      | none => none
  { info with
    count := 0, lastResetTimestamp := some now,
    nextResetTime := calculatedUntil, limitResetTime := calculatedUntil }

/-- One model's pass of the expiry sweep: `checkAndResetExpiredModels`
queues the model iff `checkExpired`, computes the new "Until" via
`contentComputeUntil`, and sends a `resetSingleModelCounter` message with
`resetTimestamp = now` that `handleSingleModelReset` applies. -/
def expireModel (modelName : String) (modelInfo : ModelInfo) (plan : String)
    (now : Int) : ModelInfo :=
  if checkExpired modelInfo now then
    handleSingleModelReset modelName plan (some now) now
      (contentComputeUntil modelName plan now) (some modelInfo)
  else modelInfo

/-!
## Remaining operations -/

/-- `resetAllCountersInStorage` (storage utility module, both copies): zero
every record's count and set its "Since" to `now`; the "Until" fields are
not touched. -/
def resetAllCountersInStorage (now : Int) (modelData : List (String × ModelInfo)) :
    List (String × ModelInfo) :=
  modelData.map (fun p => (p.1, { p.2 with count := 0, lastResetTimestamp := some now }))

/-- `handleModelConfigUpdate` (`background.js:222-288`): the manual
override.  `none` models the thrown error when the model is missing from
storage.  Count and "Until" are set directly; for a bounded descriptor the
"Since" is back-computed by subtracting one period from the "Until" (an
unknown unit leaves `sinceDate` at the until-date, which is then stored);
for unlimited/none (or no descriptor) the stored "Since" is kept. -/
def handleModelConfigUpdate (modelName : String) (count untilTimestamp : Int)
    (userPlan : String) (modelData : List (String × ModelInfo)) : Option ModelInfo :=
  match jsLookup modelName modelData with
  | none => none
  | some info =>
    let limitObject := findLimitObjectForModel modelName (strToLower modelName) (getModelLimits userPlan)
    let lastReset : Option Int :=
      match limitObject with
      | some l =>
        if l.periodUnit ≠ "unlimited" ∧ l.periodUnit ≠ "none" then
          some (match l.periodUnit with
            | "hour" => untilTimestamp - l.periodAmount * 3600000
            | "day" => untilTimestamp - l.periodAmount * 86400000
            | "week" => untilTimestamp - l.periodAmount * 7 * 86400000
            | "month" => monthAdd untilTimestamp (-l.periodAmount)
            | _ => untilTimestamp)
        else info.lastResetTimestamp
      | none => info.lastResetTimestamp
    some { info with
      count := count,
      nextResetTime := some untilTimestamp,
      limitResetTime := some untilTimestamp,
      lastResetTimestamp := lastReset }

/-- `handleRateLimitHit` (`background.js:291-355`), producing the new record
for `modelSlug`.  The o3 warning branch (lines 310-320) calls
`parseWarningTimestamps` and then tests
`timestamps.sinceTimestamp && timestamps.untilTimestamp`; but
`parseWarningTimestamps` (`timestamp_utils.js:286-368`) returns an object
whose keys are `since`/`until` only, so both property reads yield
`undefined` (falsy) and the branch never commits any value — the embedding
records that outcome as `none`. -/
def handleRateLimitHit (modelSlug : String) (newSinceTimestampFromBanner : Option Int)
    (resetCounter : Bool) (warningText : Option String) (plan : String)
    (existing : Option ModelInfo) (dateNow : Int) : ModelInfo :=
  let limitObject := findLimitObjectForModel modelSlug (strToLower modelSlug) (getModelLimits plan)
  let weekGuard : Bool :=
    match limitObject with
    | some l => decide (l.periodUnit = "week")
    | none => false
  let warningCommit : Option (Int × Int) :=
    if jsTruthyStr warningText && strIncludes (strToLower modelSlug) "o3" && weekGuard then
      -- background.js:315 reads properties the parser never sets: no commit
      none
    else none
  let newSince0 : Option Int :=
    match warningCommit with
    | some p => some p.1
    | none => newSinceTimestampFromBanner
  let newSince : Int :=
    if jsTruthy newSince0 then jsVal newSince0
    else if jsTruthy newSinceTimestampFromBanner then jsVal newSinceTimestampFromBanner
    else dateNow
  let newUntil0 : Option Int :=
    match warningCommit with
    | some p => some p.2
    | none => none
  let newUntil : Option Int :=
    if jsTruthy newUntil0 = false then
      match limitObject with
      | some l => calculateNextTimestampAfterPeriod (some newSince) l
      | none => newUntil0
    else newUntil0
  let info := existing.getD
    { count := 0, lastResetTimestamp := none, nextResetTime := none, limitResetTime := none }
  let info := if resetCounter then { info with count := 0 } else info
  { info with
    lastResetTimestamp := some newSince,
    nextResetTime := newUntil, limitResetTime := newUntil }

/-- Outcome of `saveUserPlanToStorage`: whether a storage write was
attempted, the returned boolean, and the plan persisted afterwards. -/
structure SaveOutcome where
  attemptedWrite : Bool
  result : Bool
  stored : Option String
deriving DecidableEq

/-- `saveUserPlanToStorage` (storage utility module, both copies): any value
other than the exact strings FREE and PLUS is rejected up front — `false` is
returned and no write is attempted.  (The `catch` branch, a transport
failure during the write, is outside this pure model.) -/
def saveUserPlanToStorage (plan : String) (stored : Option String) : SaveOutcome :=
  if plan ≠ "FREE" ∧ plan ≠ "PLUS" then
    { attemptedWrite := false, result := false, stored := stored }
  else
    { attemptedWrite := true, result := true, stored := some plan }

/-!
## Named concrete scenario inputs -/

/-- Record used for the rollForward evaluation: window started 10h ago,
window ends 24h after the start (in the future), five messages counted;
descriptor hour×3 (`gpt-4o` on FREE). -/
def c1Info : ModelInfo :=
  { count := 5, lastResetTimestamp := some 36000000,
    nextResetTime := some 122400000, limitResetTime := some 122400000 }

/-- The FREE-plan `gpt-4o` descriptor (hour×3). -/
def c1Limit : LimitObject := { limit := 25, periodAmount := 3, periodUnit := "hour" }

/-- Epoch millis of May 19 2025 00:00:00.000 (what `new Date("May 19, 2025")`
yields in the fixed-offset model): the banner timestamp the content script
parses from "...until it resets May 19, 2025". -/
def c2BannerTimestamp : Int := daysFromCivil 2025 5 19 * 86400000

/-- Epoch millis of May 10 2025 00:00:00.000, the parse instant of
Scenario A. -/
def c2ParseNow : Int := daysFromCivil 2025 5 10 * 86400000

/-- The windowEnd the claim asserts: May 19 2025 23:59:59.999. -/
def c2ClaimEnd : Int := c2BannerTimestamp + 86399999

/-- The windowStart the claim asserts: May 12 2025 00:00:00.000. -/
def c2ClaimStart : Int := daysFromCivil 2025 5 12 * 86400000

/-- A stored o3 record before the warning banner is processed. -/
def c2Info : ModelInfo :=
  { count := 12, lastResetTimestamp := some 1000, nextResetTime := some 2000,
    limitResetTime := some 2000 }

/-- An empty record (used to exhibit a terminating rollForward run). -/
def c3Info : ModelInfo :=
  { count := 0, lastResetTimestamp := none, nextResetTime := none, limitResetTime := none }

/-- A record whose stored windowStart (1000) lies in the future of `now = 0`
while its windowEnd is also in the future: rollForward processes it and
leaves it unchanged. -/
def c4Info : ModelInfo :=
  { count := 1, lastResetTimestamp := some 1000, nextResetTime := some 7200000,
    limitResetTime := some 7200000 }

/-- An expired record of the unlimited FREE model `gpt-4o-mini`. -/
def c5Info : ModelInfo :=
  { count := 3, lastResetTimestamp := some 1000, nextResetTime := some 2000,
    limitResetTime := some 2000 }

/-- An expired record of the bounded FREE model `gpt-4o`. -/
def c5wInfo : ModelInfo :=
  { count := 9, lastResetTimestamp := some 500, nextResetTime := some 600,
    limitResetTime := some 600 }

/-- A record with a stale windowEnd (999) far in the past. -/
def c6Info : ModelInfo :=
  { count := 7, lastResetTimestamp := some 1, nextResetTime := some 999,
    limitResetTime := some 999 }

/-- A one-record store holding `c6Info`. -/
def c6Store : List (String × ModelInfo) := [("gpt-4", c6Info)]

/-- A stored record for the manual-override scenario. -/
def c7Info : ModelInfo :=
  { count := 2, lastResetTimestamp := some 111, nextResetTime := some 222,
    limitResetTime := some 222 }

/-- A one-record store for the manual-override scenario. -/
def c7Data : List (String × ModelInfo) := [("gpt-4o", c7Info)]

/-- `c6Info` after "reset all" at `now = 5000000`: count and windowStart
reset, windowEnd untouched at the stale 999. -/
def c6After : ModelInfo :=
  { count := 0, lastResetTimestamp := some 5000000, nextResetTime := some 999,
    limitResetTime := some 999 }

/-- The record the manual-override witness expects. -/
def c7After : ModelInfo :=
  { count := 5, nextResetTime := some 720000000, limitResetTime := some 720000000,
    lastResetTimestamp := some 709200000 }

/-!
## Calendar lemmas (correctness of the `Date`-runtime model) -/

theorem marchYearOfDay_correct (z : Int) :
    marchStart (marchYearOfDay z) ≤ z ∧ z < marchStart (marchYearOfDay z + 1) := by
  simp only [marchYearOfDay, marchStart, daysBeforeYear, leapCorr]
  split_ifs <;> omega

theorem marchLength (y : Int) :
    marchStart (y + 1) - marchStart y = 365 + leapCorr (y + 1) := by
  simp only [marchStart, daysBeforeYear, leapCorr]
  split_ifs <;> omega

theorem leapCorr_cases (y : Int) : leapCorr y = 0 ∨ leapCorr y = 1 := by
  unfold leapCorr; split_ifs <;> simp

/-- The civil decomposition and recomposition are mutually inverse. -/
theorem daysFromCivil_civilFromDays (z : Int) :
    daysFromCivil (civilFromDays z).1 (civilFromDays z).2.1 (civilFromDays z).2.2 = z := by
  obtain ⟨h1, h2⟩ := marchYearOfDay_correct z
  have h3 := marchLength (marchYearOfDay z)
  obtain h4 := leapCorr_cases (marchYearOfDay z + 1)
  simp only [civilFromDays, daysFromCivil]
  split_ifs <;> (try simp only [Int.add_sub_cancel, Int.sub_add_cancel]) <;> omega

theorem civilFromDays_month_range (z : Int) :
    1 ≤ (civilFromDays z).2.1 ∧ (civilFromDays z).2.1 ≤ 12 := by
  obtain ⟨h1, h2⟩ := marchYearOfDay_correct z
  have h3 := marchLength (marchYearOfDay z)
  obtain h4 := leapCorr_cases (marchYearOfDay z + 1)
  simp only [civilFromDays]
  split_ifs <;> omega

theorem civilFromDays_day_range (z : Int) :
    1 ≤ (civilFromDays z).2.2 ∧ (civilFromDays z).2.2 ≤ 31 := by
  obtain ⟨h1, h2⟩ := marchYearOfDay_correct z
  have h3 := marchLength (marchYearOfDay z)
  obtain h4 := leapCorr_cases (marchYearOfDay z + 1)
  simp only [civilFromDays]
  omega

theorem calendar_sanity_epoch : civilFromDays 0 = (1970, 1, 1) := by decide

theorem calendar_sanity_may19 : daysFromCivil 2025 5 19 = 20227 := by decide

theorem calendar_sanity_leap_day : civilFromDays 11016 = (2000, 2, 29) := by decide

theorem calendar_sanity_overflow : daysFromCivil 2025 1 32 = daysFromCivil 2025 2 1 := by decide

/-- Moving one linearised month later is at least 28 days later. -/
theorem daysFromCivil_linMonth_step (ym d : Int) :
    daysFromCivil (ym / 12) (ym % 12 + 1) d + 28 ≤
      daysFromCivil ((ym + 1) / 12) ((ym + 1) % 12 + 1) d := by
  have h3 := leapCorr_cases (ym / 12)
  have h4 := leapCorr_cases (ym / 12 + 1)
  by_cases hr : ym % 12 = 11
  · have e1 : (ym + 1) / 12 = ym / 12 + 1 := by omega
    have e2 : (ym + 1) % 12 = 0 := by omega
    rw [e1, e2]
    have h1 := marchLength (ym / 12)
    simp only [daysFromCivil, hr]
    split_ifs <;> (try simp only [Int.add_sub_cancel]) <;> omega
  · have e1 : (ym + 1) / 12 = ym / 12 := by omega
    have e2 : (ym + 1) % 12 = ym % 12 + 1 := by omega
    rw [e1, e2]
    have h2 := marchLength (ym / 12 - 1)
    rw [Int.sub_add_cancel] at h2
    simp only [daysFromCivil]
    split_ifs <;> omega

/-- Moving `n ≥ 1` linearised months later is at least 28 days later. -/
theorem daysFromCivil_linMonth_mono (ym d n : Int) (hn : 1 ≤ n) :
    daysFromCivil (ym / 12) (ym % 12 + 1) d + 28 ≤
      daysFromCivil ((ym + n) / 12) ((ym + n) % 12 + 1) d := by
  refine Int.le_induction
    (P := fun k => daysFromCivil (ym / 12) (ym % 12 + 1) d + 28 ≤
      daysFromCivil ((ym + k) / 12) ((ym + k) % 12 + 1) d) ?_ ?_ n hn
  · exact daysFromCivil_linMonth_step ym d
  · intro m hm ih
    have h1 := daysFromCivil_linMonth_step (ym + m) d
    have h2 : ym + (m + 1) = ym + m + 1 := by ring
    rw [h2]
    omega

/-- Adding `n ≥ 1` calendar months always moves a timestamp forward. -/
theorem monthAdd_gt (t n : Int) (hn : 1 ≤ n) : t < monthAdd t n := by
  simp only [monthAdd]
  set z := (t - t % 86400000) / 86400000 with hz
  set c := civilFromDays z with hc
  have hrt := daysFromCivil_civilFromDays z
  have hm := civilFromDays_month_range z
  rw [← hc] at hrt hm
  have hnorm1 : (c.1 * 12 + (c.2.1 - 1)) / 12 = c.1 := by omega
  have hnorm2 : (c.1 * 12 + (c.2.1 - 1)) % 12 + 1 = c.2.1 := by omega
  have hmono := daysFromCivil_linMonth_mono (c.1 * 12 + (c.2.1 - 1)) c.2.2 n hn
  rw [hnorm1, hnorm2, hrt] at hmono
  omega

/-!
## rollForward: the stepping loop can never satisfy the commit guard -/

/-- Whenever the source's `while` loop of `updateFutureModelTimestamps`
terminates, its final value fails the loop condition. -/
theorem rollLoop_exit (limitObject : LimitObject) (now resetTime : Int) :
    ∀ (fuel : Nat) (s v : Option Int),
      rollLoop limitObject now resetTime fuel s = some v →
      ¬(jsVal v < now ∧ jsVal v < resetTime) := by
  intro fuel
  induction fuel with
  | zero =>
    intro s v h
    simp only [rollLoop] at h
    split at h
    · exact absurd h (by simp)
    · rename_i hc
      obtain rfl := Option.some.inj h
      exact hc
  | succ n ih =>
    intro s v h
    simp only [rollLoop] at h
    split at h
    · exact ih _ _ h
    · rename_i hc
      obtain rfl := Option.some.inj h
      exact hc

/-- Whenever `updateFutureModelTimestamps` returns for a model (any fuel),
the record is unchanged: the commit guard `nextPeriodStart >
lastResetTimestamp && nextPeriodStart < now` is unsatisfiable for records
whose effective reset time lies in the future, because the loop only stops
at or past `now` or `resetTime`, and the `resetTime` cap reverts the
candidate. -/
theorem rollForwardStep_eq_some (fuel : Nat) (modelInfo : ModelInfo)
    (limitObject : LimitObject) (now : Int) (r : ModelInfo)
    (h : rollForwardStep fuel modelInfo limitObject now = some r) : r = modelInfo := by
  simp only [rollForwardStep] at h
  split at h
  case isFalse => exact (Option.some.inj h).symm
  case isTrue houter =>
    generalize hrtv : jsVal (jsOr modelInfo.nextResetTime modelInfo.limitResetTime) = rtv at h houter
    generalize hlst : (if jsTruthy modelInfo.lastResetTimestamp = true then
      jsVal modelInfo.lastResetTimestamp else now - 86400000) = last at h
    obtain ⟨htr, hnow⟩ := houter
    split at h
    case h_1 => exact absurd h (by simp)
    case h_2 nps hres =>
      split at h
      case isFalse => exact (Option.some.inj h).symm
      case isTrue hcommit =>
        exfalso
        simp only [rollForwardLoopResult] at hres
        split at hres
        case isTrue hbounded =>
          rcases Option.map_eq_some'.mp hres with ⟨s0, hs0, hguard⟩
          have hpost := rollLoop_exit limitObject now rtv fuel _ s0 hs0
          split at hguard
          case isTrue hg =>
            subst hguard
            simp only [jsVal] at hcommit
            omega
          case isFalse hg =>
            subst hguard
            push_neg at hg hpost
            omega
        case isFalse =>
          have hv := Option.some.inj hres
          subst hv
          simp only [jsVal] at hcommit
          omega

/-!
## Supporting lemmas for the claims -/

/-- Under any plan, no entry of `getModelLimits` matches the model `o3`
(no key equals, contains, or is contained in "o3"). -/
theorem findLimitObjectForModel_o3 (plan : String) :
    findLimitObjectForModel "o3" (strToLower "o3") (getModelLimits plan) = none := rfl

/-- For a bounded descriptor found in the content-script table, the expiry
sweep's own period switch agrees with `calculateNextTimestampAfterPeriod`
(fresh from `now > 0`), and its not-past-now fallback never fires. -/
theorem contentComputeUntil_bounded (modelName plan : String) (now : Int) (d : ContentLimit)
    (hfind : findLimitObjectForModel modelName (strToLower modelName) (contentModelLimits plan) =
      some d)
    (hunit : d.periodUnit = "hour" ∨ d.periodUnit = "day" ∨ d.periodUnit = "week" ∨
      d.periodUnit = "month")
    (hamt : 0 < d.periodAmount) (hnow : 0 < now) :
    contentComputeUntil modelName plan now = some (contentSwitchAdvance now d) ∧
    calculateNextTimestampAfterPeriod (some now) (contentDescriptor d) =
      some (contentSwitchAdvance now d) := by
  have hadv : now < contentSwitchAdvance now d := by
    rcases hunit with h | h | h | h
    · simp only [contentSwitchAdvance, h]; omega
    · simp only [contentSwitchAdvance, h]; omega
    · simp only [contentSwitchAdvance, h]; omega
    · simp only [contentSwitchAdvance, h]
      exact monthAdd_gt now d.periodAmount (by omega)
  constructor
  · simp only [contentComputeUntil, hfind]
    have hne : d.periodUnit ≠ "unlimited" ∧ d.periodUnit ≠ "none" := by
      rcases hunit with h | h | h | h <;> rw [h] <;> exact ⟨by decide, by decide⟩
    rw [if_pos hne, if_neg (by omega : ¬(contentSwitchAdvance now d ≤ now))]
  · have hne0 : ¬(now = 0) := by omega
    rcases hunit with h | h | h | h <;>
      simp only [calculateNextTimestampAfterPeriod, contentDescriptor, contentSwitchAdvance,
        h, if_neg hne0]

/-!
## Claim theorems -/

/-- C1: the spec says the rollForward routine
(`updateFutureModelTimestamps`), on a record with a future windowEnd whose
stepped candidate lands in `(windowStart, now)`, commits
`windowStart = candidate`, `windowEnd = advance(candidate, descriptor)` and
resets `count` to 0.  Evaluating the code on a record of the hour×3 model
`gpt-4o` whose window started 10 h before `now` (three full periods elapsed,
windowEnd still 14 h in the future — a genuine rollover situation) shows the
routine changes nothing: the record comes back identical, count still 5.
Indeed the commit guard requires `candidate < now`, which the stepping loop
makes unsatisfiable (see `rollForwardStep_eq_some`), and even the dead
commit branch would preserve `count`. -/
theorem C1_rollForward_eval :
    rollForwardStep 10 c1Info c1Limit 72000000 = some c1Info ∧
    calculateNextTimestampAfterPeriod c1Info.lastResetTimestamp c1Limit = some 46800000 ∧
    (46800000 : Int) < 72000000 ∧ (72000000 : Int) < jsVal c1Info.nextResetTime := by
  decide

/-- C2 counterexample: parsing the o3 weekly warning banner
"...until it resets May 19, 2025" on May 10 2025 (Scenario A) does not
produce the claimed signal.  The stored record gets `windowEnd = null` (not
23:59:59.999 of May 19) and `windowStart` = the parsed date itself (May 19
00:00:00.000, not May 12 00:00:00.000). -/
theorem C2_counterexample :
    (handleRateLimitHit "o3" (some c2BannerTimestamp) false
      (some "If you hit the limit, responses will switch to another model until it resets May 19, 2025.")
      "PLUS" (some c2Info) c2ParseNow).nextResetTime = none ∧
    (handleRateLimitHit "o3" (some c2BannerTimestamp) false
      (some "If you hit the limit, responses will switch to another model until it resets May 19, 2025.")
      "PLUS" (some c2Info) c2ParseNow).lastResetTimestamp = some c2BannerTimestamp ∧
    (none : Option Int) ≠ some c2ClaimEnd ∧
    c2BannerTimestamp ≠ c2ClaimStart := by
  decide

/-- C2 (amended): for any o3 warning banner (any text, any plan), the
background stores `windowStart` = the banner timestamp passed by the content
script (the parsed calendar date itself) unchanged, and `windowEnd` absent:
the background's `getModelLimits` table has no entry matching o3 (and no
weekly entry), so the weekly-warning branch never fires — and it could
commit nothing anyway, since it reads result properties
(`sinceTimestamp`/`untilTimestamp`) that `parseWarningTimestamps` never
produces.  No 23:59:59.999 windowEnd or back-derived midnight windowStart is
ever produced. -/
theorem C2_o3_warning_actual (T : Int) (warningText : Option String) (plan : String)
    (info : ModelInfo) (dateNow : Int) (hT : T ≠ 0) :
    handleRateLimitHit "o3" (some T) false warningText plan (some info) dateNow =
      { info with
        lastResetTimestamp := some T, nextResetTime := none, limitResetTime := none } := by
  have hfind := findLimitObjectForModel_o3 plan
  simp [handleRateLimitHit, hfind, jsTruthy, jsVal, jsTruthyStr, hT]

/-- C2 witness: the amended statement at the Scenario A inputs. -/
theorem C2_o3_warning_actual_witness :
    c2BannerTimestamp ≠ 0 ∧
    handleRateLimitHit "o3" (some c2BannerTimestamp) false
      (some "If you hit the limit, responses will switch to another model until it resets May 19, 2025.")
      "PLUS" (some c2Info) c2ParseNow =
      { c2Info with
        lastResetTimestamp := some c2BannerTimestamp, nextResetTime := none,
        limitResetTime := none } :=
  ⟨by decide,
   C2_o3_warning_actual c2BannerTimestamp
    (some "If you hit the limit, responses will switch to another model until it resets May 19, 2025.")
    "PLUS" c2Info c2ParseNow (by decide)⟩

/-- C3: the rollForward routine is idempotent — whenever it returns a record
for a model, running it again immediately (same `now`, no time elapsed)
returns that record unchanged. -/
theorem C3_rollForward_idempotent (fuel : Nat) (modelInfo r : ModelInfo)
    (limitObject : LimitObject) (now : Int)
    (h : rollForwardStep fuel modelInfo limitObject now = some r) :
    rollForwardStep fuel r limitObject now = some r := by
  obtain rfl := rollForwardStep_eq_some fuel modelInfo limitObject now r h
  exact h

/-- C3 witness: a terminating run to which the idempotence theorem applies. -/
theorem C3_rollForward_idempotent_witness :
    rollForwardStep 1 c3Info c1Limit 0 = some c3Info :=
  C3_rollForward_idempotent 1 c3Info c3Info c1Limit 0 (by decide)

/-- C4 counterexample: a record whose stored windowStart (1000) is in the
future of `now = 0` (with a future truthy windowEnd) is processed by
rollForward and returned unchanged, so the windowStart it produces (1000)
exceeds `now` — refuting "the windowStart produced never exceeds now" as
universally stated. -/
theorem C4_counterexample :
    rollForwardStep 5 c4Info c1Limit 0 = some c4Info ∧
    c4Info.lastResetTimestamp = some 1000 ∧ (0 : Int) < 1000 := by
  decide

/-- C4 (amended): rollForward never changes `windowStart` at all — whenever
it returns, the output windowStart equals the input windowStart.  Hence it
never moves windowStart backward, and it never exceeds `now` unless the
input windowStart already did. -/
theorem C4_windowStart_unchanged (fuel : Nat) (modelInfo r : ModelInfo)
    (limitObject : LimitObject) (now : Int)
    (h : rollForwardStep fuel modelInfo limitObject now = some r) :
    r.lastResetTimestamp = modelInfo.lastResetTimestamp ∧
    jsVal modelInfo.lastResetTimestamp ≤ jsVal r.lastResetTimestamp ∧
    (jsVal modelInfo.lastResetTimestamp ≤ now → jsVal r.lastResetTimestamp ≤ now) := by
  obtain rfl := rollForwardStep_eq_some fuel modelInfo limitObject now r h
  exact ⟨rfl, le_refl _, fun hx => hx⟩

/-- C4 witness: the amended statement at the C1 evaluation inputs. -/
theorem C4_windowStart_unchanged_witness :
    c1Info.lastResetTimestamp = c1Info.lastResetTimestamp ∧
    jsVal c1Info.lastResetTimestamp ≤ jsVal c1Info.lastResetTimestamp ∧
    (jsVal c1Info.lastResetTimestamp ≤ 72000000 → jsVal c1Info.lastResetTimestamp ≤ 72000000) :=
  C4_windowStart_unchanged 10 c1Info c1Info c1Limit 72000000 (by decide)

/-- C5 counterexample: the expired record of FREE model `gpt-4o-mini`, whose
sweep descriptor is `unlimited` (so the claimed
`windowEnd = advance(now, descriptor)` is absent), is reset with
`windowEnd = now + 1 day` instead — recomputed by the background from its
own divergent table (partial match on the key `gpt-4`). -/
theorem C5_counterexample :
    expireModel "gpt-4o-mini" c5Info "FREE" 1000000 =
      { count := 0, lastResetTimestamp := some 1000000,
        nextResetTime := some 87400000, limitResetTime := some 87400000 } ∧
    findLimitObjectForModel "gpt-4o-mini" (strToLower "gpt-4o-mini")
      (contentModelLimits "FREE") = some { periodAmount := 0, periodUnit := "unlimited" } ∧
    calculateNextTimestampAfterPeriod (some 1000000)
      (contentDescriptor { periodAmount := 0, periodUnit := "unlimited" }) = none ∧
    (some (87400000 : Int)) ≠ (none : Option Int) := by
  decide

/-- C5 (amended): the expiry sweep is a no-op or a full reset.  If the
effective stored windowEnd is truthy, positive and strictly before `now`,
the record becomes `count = 0`, `windowStart = now`, and — when the sweep's
content-table descriptor is bounded — `windowEnd = advance(now, descriptor)`
computed fresh from `now`; otherwise the record is unchanged.  In every case
the resulting count is exactly 0 or the input count.  (For unbounded or
missing descriptors the background recomputes windowEnd from its own table
instead, as the counterexample shows.) -/
theorem C5_expire_shape (modelName : String) (modelInfo : ModelInfo) (plan : String)
    (now : Int) (d : ContentLimit) :
    ((expireModel modelName modelInfo plan now).count = 0 ∨
      (expireModel modelName modelInfo plan now).count = modelInfo.count) ∧
    (checkExpired modelInfo now = false → expireModel modelName modelInfo plan now = modelInfo) ∧
    (checkExpired modelInfo now = true →
      findLimitObjectForModel modelName (strToLower modelName) (contentModelLimits plan) =
        some d →
      (d.periodUnit = "hour" ∨ d.periodUnit = "day" ∨ d.periodUnit = "week" ∨
        d.periodUnit = "month") →
      0 < d.periodAmount →
      expireModel modelName modelInfo plan now =
        { count := 0, lastResetTimestamp := some now,
          nextResetTime := calculateNextTimestampAfterPeriod (some now) (contentDescriptor d),
          limitResetTime :=
            calculateNextTimestampAfterPeriod (some now) (contentDescriptor d) }) := by
  refine ⟨?_, ?_, ?_⟩
  · cases hexp : checkExpired modelInfo now with
    | false => right; simp [expireModel, hexp]
    | true => left; simp [expireModel, hexp, handleSingleModelReset]
  · intro hexp
    simp [expireModel, hexp]
  · intro hexp hfind hunit hamt
    have hnow : 0 < now := by
      simp only [checkExpired, Bool.and_eq_true, decide_eq_true_eq] at hexp
      omega
    have hb := contentComputeUntil_bounded modelName plan now d hfind hunit hamt hnow
    simp only [expireModel, hexp, if_true]
    rw [hb.1, hb.2]
    have hne0 : now ≠ 0 := by omega
    simp [handleSingleModelReset, jsTruthy, jsVal, hne0]

/-- C5 witness: the expired hour×3 record of FREE model `gpt-4o` gets a full
reset with `windowEnd = advance(now, descriptor)`. -/
theorem C5_expire_shape_witness :
    checkExpired c5wInfo 10000000 = true ∧
    expireModel "gpt-4o" c5wInfo "FREE" 10000000 =
      { count := 0, lastResetTimestamp := some 10000000,
        nextResetTime := calculateNextTimestampAfterPeriod (some 10000000)
          (contentDescriptor { periodAmount := 3, periodUnit := "hour" }),
        limitResetTime := calculateNextTimestampAfterPeriod (some 10000000)
          (contentDescriptor { periodAmount := 3, periodUnit := "hour" }) } :=
  ⟨by decide,
   (C5_expire_shape "gpt-4o" c5wInfo "FREE" 10000000
      { periodAmount := 3, periodUnit := "hour" }).2.2
    (by decide) (by decide) (by decide) (by decide)⟩

/-- C6 counterexample: "reset all" at `now = 5000000` on a record whose
stored windowEnd is the stale past instant 999 zeroes the count and sets
windowStart to `now` but leaves windowEnd at 999 — below the new
windowStart, and not the recomputation `advance(now, descriptor)`
(= 91400000 for the matching `gpt-4` day×1 descriptor). -/
theorem C6_counterexample :
    resetAllCountersInStorage 5000000 c6Store = [("gpt-4", c6After)] ∧
    c6After.nextResetTime = some 999 ∧
    (999 : Int) < 5000000 ∧
    findLimitObjectForModel "gpt-4" (strToLower "gpt-4") (getModelLimits "FREE") =
      some { limit := 40, periodAmount := 1, periodUnit := "day" } ∧
    calculateNextTimestampAfterPeriod (some 5000000)
      { limit := 40, periodAmount := 1, periodUnit := "day" } = some 91400000 ∧
    (some (999 : Int)) ≠ some (91400000 : Int) := by
  decide

/-- C6 (amended): "reset all" clears every stored record to `count = 0` and
`windowStart = now`, leaving `windowEnd` (both mirror fields) unchanged —
it is not recomputed. -/
theorem C6_resetAll_per_record (now : Int) (store : List (String × ModelInfo))
    (k : String) (v : ModelInfo) (h : (k, v) ∈ store) :
    (k, { v with count := 0, lastResetTimestamp := some now }) ∈
      resetAllCountersInStorage now store := by
  unfold resetAllCountersInStorage
  exact List.mem_map_of_mem _ h

/-- C6 witness: the amended statement at the counterexample store. -/
theorem C6_resetAll_per_record_witness :
    ("gpt-4", { c6Info with count := 0, lastResetTimestamp := some 5000000 }) ∈
      resetAllCountersInStorage 5000000 c6Store :=
  C6_resetAll_per_record 5000000 c6Store "gpt-4" c6Info (by decide)

/-- C7: the manual override (`handleModelConfigUpdate`) sets `count`
directly and `windowEnd = T` (both mirror fields), and back-computes
`windowStart` by subtracting exactly one period from `T` for each bounded
descriptor unit (e.g. hour×a gives `T - a·3600000` ms); for
unlimited/none descriptors the stored windowStart is left unchanged. -/
theorem C7_manual_override (modelName : String) (count untilTimestamp : Int)
    (userPlan : String) (modelData : List (String × ModelInfo)) (info : ModelInfo)
    (l : LimitObject)
    (hdata : jsLookup modelName modelData = some info)
    (hfind : findLimitObjectForModel modelName (strToLower modelName)
      (getModelLimits userPlan) = some l) :
    (l.periodUnit = "hour" →
      handleModelConfigUpdate modelName count untilTimestamp userPlan modelData =
        some { info with
          count := count, nextResetTime := some untilTimestamp,
          limitResetTime := some untilTimestamp,
          lastResetTimestamp := some (untilTimestamp - l.periodAmount * 3600000) }) ∧
    (l.periodUnit = "day" →
      handleModelConfigUpdate modelName count untilTimestamp userPlan modelData =
        some { info with
          count := count, nextResetTime := some untilTimestamp,
          limitResetTime := some untilTimestamp,
          lastResetTimestamp := some (untilTimestamp - l.periodAmount * 86400000) }) ∧
    (l.periodUnit = "week" →
      handleModelConfigUpdate modelName count untilTimestamp userPlan modelData =
        some { info with
          count := count, nextResetTime := some untilTimestamp,
          limitResetTime := some untilTimestamp,
          lastResetTimestamp := some (untilTimestamp - l.periodAmount * 7 * 86400000) }) ∧
    (l.periodUnit = "month" →
      handleModelConfigUpdate modelName count untilTimestamp userPlan modelData =
        some { info with
          count := count, nextResetTime := some untilTimestamp,
          limitResetTime := some untilTimestamp,
          lastResetTimestamp := some (monthAdd untilTimestamp (-l.periodAmount)) }) ∧
    ((l.periodUnit = "unlimited" ∨ l.periodUnit = "none") →
      handleModelConfigUpdate modelName count untilTimestamp userPlan modelData =
        some { info with
          count := count, nextResetTime := some untilTimestamp,
          limitResetTime := some untilTimestamp }) := by
  refine ⟨?_, ?_, ?_, ?_, ?_⟩
  · intro h
    simp [handleModelConfigUpdate, hdata, hfind, h]
  · intro h
    simp [handleModelConfigUpdate, hdata, hfind, h]
  · intro h
    simp [handleModelConfigUpdate, hdata, hfind, h]
  · intro h
    simp [handleModelConfigUpdate, hdata, hfind, h]
  · intro h
    rcases h with h | h <;> simp [handleModelConfigUpdate, hdata, hfind, h]

/-- C7 witness: override of `gpt-4o` (hour×3 under FREE) with count 5 and
until `T = 720000000`: windowStart becomes `T - 3 h`. -/
theorem C7_manual_override_witness :
    handleModelConfigUpdate "gpt-4o" 5 720000000 "FREE" c7Data = some c7After :=
  (C7_manual_override "gpt-4o" 5 720000000 "FREE" c7Data c7Info
    { limit := 25, periodAmount := 3, periodUnit := "hour" }
    (by decide) (by decide)).1 rfl

/-- C8: `calculateNextTimestampAfterPeriod` returns absent for every
timestamp when the descriptor's period unit is `unlimited` or `none`, and
also for every unit outside the recognised six — never a zero-length or
unchanged period silently treated as valid. -/
theorem C8_advance_absent (timestamp : Option Int) (limitObject : LimitObject)
    (h : limitObject.periodUnit = "unlimited" ∨ limitObject.periodUnit = "none" ∨
      (limitObject.periodUnit ≠ "hour" ∧ limitObject.periodUnit ≠ "day" ∧
       limitObject.periodUnit ≠ "week" ∧ limitObject.periodUnit ≠ "month")) :
    calculateNextTimestampAfterPeriod timestamp limitObject = none := by
  cases timestamp with
  | none => rfl
  | some t =>
    simp only [calculateNextTimestampAfterPeriod]
    split_ifs with ht
    · rfl
    · split <;>
        first
          | rfl
          | (rename_i hu
             rcases h with h | h | ⟨h1, h2, h3, h4⟩ <;> simp_all)

/-- C8 witness: an unrecognised unit at a truthy timestamp. -/
theorem C8_advance_absent_witness :
    (({ limit := 0, periodAmount := 2, periodUnit := "fortnight" } : LimitObject).periodUnit =
        "unlimited" ∨
      ({ limit := 0, periodAmount := 2, periodUnit := "fortnight" } : LimitObject).periodUnit =
        "none" ∨
      (({ limit := 0, periodAmount := 2, periodUnit := "fortnight" } : LimitObject).periodUnit ≠
          "hour" ∧
        ({ limit := 0, periodAmount := 2, periodUnit := "fortnight" } : LimitObject).periodUnit ≠
          "day" ∧
        ({ limit := 0, periodAmount := 2, periodUnit := "fortnight" } : LimitObject).periodUnit ≠
          "week" ∧
        ({ limit := 0, periodAmount := 2, periodUnit := "fortnight" } : LimitObject).periodUnit ≠
          "month")) ∧
    calculateNextTimestampAfterPeriod (some 5)
      { limit := 0, periodAmount := 2, periodUnit := "fortnight" } = none :=
  ⟨by decide,
   C8_advance_absent (some 5) { limit := 0, periodAmount := 2, periodUnit := "fortnight" }
    (by decide)⟩

/-- C9: for every plan identifier other than FREE and PLUS, the
content-script plan/limit table is the empty mapping, so the model matcher
finds no descriptor for any model name under that plan. -/
theorem C9_unknown_plan_empty (plan : String) (h1 : plan ≠ "FREE") (h2 : plan ≠ "PLUS") :
    contentModelLimits plan = [] ∧
    ∀ name : String,
      findLimitObjectForModel name (strToLower name) (contentModelLimits plan) = none := by
  have he : contentModelLimits plan = [] := by
    unfold contentModelLimits
    rw [if_neg h1, if_neg h2]
  refine ⟨he, fun name => ?_⟩
  rw [he]
  rfl

/-- C9 witness: the unknown plan "TEAM". -/
theorem C9_unknown_plan_empty_witness :
    ("TEAM" : String) ≠ "FREE" ∧ ("TEAM" : String) ≠ "PLUS" ∧
    contentModelLimits "TEAM" = [] ∧
    findLimitObjectForModel "o3" (strToLower "o3") (contentModelLimits "TEAM") = none :=
  ⟨by decide, by decide,
   (C9_unknown_plan_empty "TEAM" (by decide) (by decide)).1,
   (C9_unknown_plan_empty "TEAM" (by decide) (by decide)).2 "o3"⟩

/-- C10: `saveUserPlanToStorage` rejects every value other than the exact
strings FREE and PLUS — it returns false without attempting a storage write,
leaving the persisted plan unchanged; a write is attempted only for those
two values. -/
theorem C10_save_plan (plan : String) (stored : Option String) :
    (plan ≠ "FREE" → plan ≠ "PLUS" →
      saveUserPlanToStorage plan stored =
        { attemptedWrite := false, result := false, stored := stored }) ∧
    ((saveUserPlanToStorage plan stored).attemptedWrite = true →
      plan = "FREE" ∨ plan = "PLUS") := by
  constructor
  · intro h1 h2
    unfold saveUserPlanToStorage
    rw [if_pos ⟨h1, h2⟩]
  · intro h
    by_contra hc
    push_neg at hc
    unfold saveUserPlanToStorage at h
    rw [if_pos hc] at h
    simp at h

/-- C10 witness: the rejected plan string "PRO". -/
theorem C10_save_plan_witness :
    ("PRO" : String) ≠ "FREE" ∧ ("PRO" : String) ≠ "PLUS" ∧
    saveUserPlanToStorage "PRO" (some "FREE") =
      { attemptedWrite := false, result := false, stored := some "FREE" } :=
  ⟨by decide, by decide, (C10_save_plan "PRO" (some "FREE")).1 (by decide) (by decide)⟩

end ModelMeter
